import Mathlib

/-!
Verification of the resilient CARLA to KUKSA VSS telemetry bridge
(container_scripts/carla_vss_bridge.py), as a shallow embedding.

Floats are modelled as exact rationals (for the rpm estimator) and as
reals (for the speed computation, which takes a square root); Python
round is round-half-to-even, modelled by pyRound.  The sampling loop
CarlaVSSBridge._loop is modelled as a state machine driven by one
environment record per tick describing the behaviour of the two remote
endpoints during that tick; the loop is run on a finite observation
window of such records.
-/

/-- Python round(x): nearest integer, ties go to the even neighbour. -/
def pyRound {α : Type} [LinearOrderedField α] [FloorRing α] [DecidableEq α] (x : α) : ℤ :=
  if Int.fract x = 1 / 2 then (if Even ⌊x⌋ then ⌊x⌋ else ⌊x⌋ + 1) else round x

/-- Python round(x, p): rounding to p decimal places. -/
def roundTo {α : Type} [LinearOrderedField α] [FloorRing α] [DecidableEq α]
    (p : ℕ) (x : α) : α :=
  ((pyRound (x * 10 ^ p) : ℤ) : α) / 10 ^ p

/-- clamp(value, low, high) from the bridge script:
return max(low, min(high, value)). -/
def clamp {α : Type} [LinearOrder α] (value low high : α) : α :=
  max low (min high value)

/-- CarlaVSSBridge._estimate_rpm, with the configuration fields
(max_speed_kmh, rpm_idle, rpm_max) passed explicitly:

if self.max_speed_kmh <= 0: ratio = 0.0
else: ratio = clamp(speed_kmh / self.max_speed_kmh, 0.0, 1.0)
rpm = self.rpm_idle + ratio * (self.rpm_max - self.rpm_idle)
return round(clamp(rpm, self.rpm_idle, self.rpm_max), 0)
-/
def _estimate_rpm (max_speed_kmh rpm_idle rpm_max speed_kmh : ℚ) : ℚ :=
  let ratio := if max_speed_kmh ≤ 0 then 0 else clamp (speed_kmh / max_speed_kmh) 0 1
  let rpm := rpm_idle + ratio * (rpm_max - rpm_idle)
  roundTo 0 (clamp rpm rpm_idle rpm_max)

/-- CarlaVSSBridge._compute_speed_kmh on a fresh velocity sample
(x, y, z): round(3.6 * math.sqrt(v.x**2 + v.y**2 + v.z**2), 3). -/
noncomputable def _compute_speed_kmh (velocity : ℝ × ℝ × ℝ) : ℝ :=
  roundTo 3 (3.6 * Real.sqrt (velocity.1 ^ 2 + velocity.2.1 ^ 2 + velocity.2.2 ^ 2))

/-- The formula the spec gives for ComputeSpeed: 3.6 times the
Euclidean magnitude of the 3-vector, rounded to 3 decimal places
(stated with the Euclidean L2 norm of Mathlib on
EuclideanSpace ℝ (Fin 3), for comparison with the implementation
_compute_speed_kmh). -/
noncomputable def computeSpeedSpec (velocity : ℝ × ℝ × ℝ) : ℝ :=
  roundTo 3 (3.6 *
    ‖((WithLp.equiv 2 (Fin 3 → ℝ)).symm ![velocity.1, velocity.2.1, velocity.2.2] :
      EuclideanSpace ℝ (Fin 3))‖)

/-- A CARLA actor as seen by _ensure_vehicle: its id, its blueprint
type_id (vehicles have type ids matching the pattern vehicle.*), its
optional role_name attribute, and its is_alive flag. -/
structure Actor where
  id : ℕ
  type_id : String
  role_name : Option String
  is_alive : Bool
deriving DecidableEq

/-- The predicate of world.get_actors().filter applied with pattern
vehicle.* : the blueprint id starts with the prefix vehicle-dot
(stated on the character lists so that it evaluates by kernel
reduction). -/
def isVehicleKind (a : Actor) : Bool :=
  List.isPrefixOf ("vehicle.").data a.type_id.data

/-- world.get_actor(actor_id): the actor with the given id, if present. -/
def getActor (world : List Actor) (actor_id : ℕ) : Option Actor :=
  world.find? (fun a => a.id == actor_id)

/-- CarlaVSSBridge._ensure_vehicle as a function of the current world
and the configured selection criterion.  Mirrors the source:

actors = self._world.get_actors().filter( vehicle.* )
selected = None
if self.vehicle_id is not None:
    selected = self._world.get_actor(self.vehicle_id)
    if selected is None: raise RuntimeError(...)
elif self.vehicle_role:
    for veh in actors:
        if veh.attributes.get(role_name) == self.vehicle_role:
            selected = veh; break
if selected is None and len(actors) > 0: selected = actors[0]
if selected is None: raise RuntimeError(...)

Note that Python truthiness makes an empty role string behave as no
role configured, and that the explicit-id branch raises before the
fallback is ever reached. -/
def ensure_vehicle (world : List Actor) (vehicle_id : Option ℕ)
    (vehicle_role : Option String) : Except String Actor :=
  let actors := world.filter isVehicleKind
  match vehicle_id with
  | some vid =>
    match getActor world vid with
    | some a => Except.ok a
    | none => Except.error ("Vehicle with id not found")
  | none =>
    let selected : Option Actor :=
      match vehicle_role with
      | some role =>
        if role = "" then none else actors.find? (fun v => v.role_name == some role)
      | none => none
    match selected with
    | some a => Except.ok a
    | none =>
      match actors with
      | a :: _ => Except.ok a
      | [] => Except.error ("No vehicle actors found in the scene. Spawn one and retry.")

/-- What the two remote endpoints do during one tick of _loop.
alive is the is_alive answer for the currently held vehicle; reacq is
the outcome of _ensure_vehicle if re-acquisition is attempted (none
means it raises RuntimeError, caught by the loop); readOk is whether
reading the velocity succeeds (a failed read raises and is caught by
the handlers of the loop); timeout is whether a carla.TimeoutError is
raised at some point of the tick body — its handler sleeps for the
reconnect delay and calls _connect_carla, whose outcome is reconnect:
none means _connect_carla (get_world or the _ensure_vehicle inside it)
raises inside the except clause, which nothing catches, so the
exception propagates out of _loop; some v means the reconnect
succeeded and v is the re-acquired vehicle; unexpected injects an
unclassified exception into the tick body (caught by the catch-all
except-Exception handler of the loop, which sleeps for the reconnect
delay); connectOk is the outcome of _connect_kuksa if attempted;
publishOk is the outcome of set_current_values if attempted; sample
abstracts the (speed, rpm) pair derived on this tick; signal is
whether SIGINT/SIGTERM is delivered during the end-of-tick sleep. -/
structure TickEnv where
  alive : Bool
  reacq : Option ℕ
  readOk : Bool
  timeout : Bool
  reconnect : Option ℕ
  unexpected : Bool
  connectOk : Bool
  publishOk : Bool
  sample : ℕ
  signal : Bool
deriving DecidableEq

/-- The mutable bridge state observed by the loop: the _shutdown flag,
the held vehicle (_vehicle, by id) and whether a KUKSA client session
is held (_kuksa_client is not None). -/
structure BridgeState where
  shutdown : Bool
  vehicle : Option ℕ
  kuksa : Bool
deriving DecidableEq

/-- Observable outcome of one tick: the sample published on this
tick (if any), whether an error was logged, and how many
time.sleep(reconnect_delay) suspensions happened inside the tick body
(not counting the end-of-tick update-interval sleep): one in the
carla-timeout handler, one in the except-Exception handler, and one in
the publish-failure branch of _publish. -/
structure TickOut where
  published : Option ℕ
  logged : Bool
  sleeps : ℕ
deriving DecidableEq

/-- CarlaVSSBridge._publish given the current Sink connection state:
reconnect if disconnected (returning without publishing when the
connect attempt fails, which logs an error), then publish the batch;
on publish failure the client is disconnected and dropped, the error
is logged, and the except clause sleeps for the reconnect delay.
Returns the new connection state and the tick outcome. -/
def _publish (kuksa : Bool) (e : TickEnv) : Bool × TickOut :=
  if kuksa = false ∧ e.connectOk = false then
    (false, ⟨none, true, 0⟩)
  else if e.publishOk then
    (true, ⟨some e.sample, false, 0⟩)
  else
    (false, ⟨none, true, 1⟩)

/-- The remainder of the tick body after the vehicle check: read the
velocity and derive the two signals (a raised read error is caught by
the RuntimeError handler of the loop, an unclassified exception by its
except-Exception handler which also sleeps for the reconnect delay —
both skip the rest of the tick), then _publish. -/
def tickCompute (s : BridgeState) (e : TickEnv) : BridgeState × TickOut :=
  if e.readOk = false then
    (s, ⟨none, true, 0⟩)
  else if e.unexpected then
    (s, ⟨none, true, 1⟩)
  else
    let r := _publish s.kuksa e
    ({ s with kuksa := r.1 }, r.2)

/-- One iteration of the try block of _loop together with its except
clauses.  A carla.TimeoutError raised during the body reaches its
handler, which sleeps for the reconnect delay and calls
_connect_carla: if that raises too (reconnect = none) nothing catches
the new exception and it propagates out of _loop — modelled as none.
Otherwise: if no vehicle is held or it is not alive, re-acquire (a
raised RuntimeError is caught and logged, skipping the tick); then
compute and publish. -/
def tickBody (s : BridgeState) (e : TickEnv) : Option (BridgeState × TickOut) :=
  if e.timeout then
    match e.reconnect with
    | none => none
    | some v => some ({ s with vehicle := some v }, ⟨none, true, 1⟩)
  else if s.vehicle.isNone || !e.alive then
    match e.reacq with
    | none => some (s, ⟨none, true, 0⟩)
    | some v => some (tickCompute { s with vehicle := some v } e)
  else
    some (tickCompute s e)

/-- One full iteration of _loop: the tick body followed by the
end-of-tick sleep, the point at which a delivered shutdown signal is
observed to have set the _shutdown flag via the signal handler.  A
propagating exception (none) aborts the iteration. -/
def tick (s : BridgeState) (e : TickEnv) : Option (BridgeState × TickOut) :=
  match tickBody s e with
  | none => none
  | some r => some ({ r.1 with shutdown := r.1.shutdown || e.signal }, r.2)

/-- Result of running the loop on an observation window: whether an
exception propagated out of _loop (crashed — final is then the state
at the start of the crashing tick and teardown does not run), the
final state, and the outcomes of the completed ticks. -/
structure LoopResult where
  crashed : Bool
  final : BridgeState
  outs : List TickOut
deriving DecidableEq

/-- The while-not-shutdown loop: run ticks while the shutdown flag is
unset, over a finite observation window of tick environments.  An
exception propagating out of a tick terminates the loop immediately
(crashed). -/
def loopRun : BridgeState → List TickEnv → LoopResult
  | s, [] => ⟨false, s, []⟩
  | s, e :: rest =>
    if s.shutdown then ⟨false, s, []⟩
    else
      match tick s e with
      | none => ⟨true, s, []⟩
      | some r =>
        let rr := loopRun r.1 rest
        ⟨rr.crashed, rr.final, r.2 :: rr.outs⟩

/-- CarlaVSSBridge._teardown: disconnect and drop the Sink client
(idempotent). -/
def teardown (s : BridgeState) : BridgeState :=
  { s with kuksa := false }

/-- main / CarlaVSSBridge.start restricted to the behaviour the claims
are about: connect to CARLA and acquire the initial target (an
acquisition failure propagates out of start, and main returns exit
code 1 before any Sink interaction), attempt the initial KUKSA
connection (non-fatal), run the loop over the observation window.  If
an exception propagates out of the loop, _teardown never runs and main
catches the exception and returns 1; on a clean loop exit teardown
runs and main returns 0.  Returns the exit code, the per-tick
published samples, and the final state. -/
def bridge_main (world : List Actor) (vehicle_id : Option ℕ)
    (vehicle_role : Option String) (kuksaStartOk : Bool)
    (envs : List TickEnv) : ℕ × List (Option ℕ) × BridgeState :=
  match ensure_vehicle world vehicle_id vehicle_role with
  | Except.error _ => (1, [], ⟨false, none, false⟩)
  | Except.ok a =>
    let s0 : BridgeState := ⟨false, some a.id, kuksaStartOk⟩
    let r := loopRun s0 envs
    if r.crashed then (1, r.outs.map TickOut.published, r.final)
    else (0, r.outs.map TickOut.published, teardown r.final)

/-- Witness tick: the batch publish call fails. -/
def envPublishFail : TickEnv := ⟨true, none, true, false, none, false, true, false, 3, false⟩

/-- Witness tick: everything succeeds. -/
def envOk : TickEnv := ⟨true, none, true, false, none, false, true, true, 4, false⟩

/-- A witness vehicle carrying the hero role. -/
def heroCar : Actor := ⟨12, "vehicle.tesla.model3", some ("hero"), true⟩

/-- A witness actor that is not vehicle-kind and not alive. -/
def walkerActor : Actor := ⟨7, "walker.pedestrian.0001", none, false⟩

/-- A witness world: one dead pedestrian and one hero vehicle. -/
def witnessWorld : List Actor := [walkerActor, heroCar]

/-! ## Rounding lemmas -/

theorem pyRound_intCast {α : Type} [LinearOrderedField α] [FloorRing α] [DecidableEq α]
    (n : ℤ) : pyRound ((n : ℤ) : α) = n := by
  unfold pyRound
  rw [Int.fract_intCast, if_neg (by norm_num), round_intCast]

theorem pyRound_eq_int {α : Type} [LinearOrderedField α] [FloorRing α] [DecidableEq α]
    (x : α) (n : ℤ) (h : x = (n : α)) : pyRound x = n := by
  rw [h, pyRound_intCast]

theorem roundTo_zero (x : ℚ) : roundTo 0 x = ((pyRound x : ℤ) : ℚ) := by
  simp [roundTo]

/-- Evaluation rule for pyRound away from ties, given the floor of x
and of x + 1/2. -/
theorem pyRound_eval {α : Type} [LinearOrderedField α] [FloorRing α] [DecidableEq α]
    (x : α) (m n : ℤ) (hm : ⌊x⌋ = m) (hne : x - (m : α) ≠ 1 / 2)
    (hn : ⌊x + 1 / 2⌋ = n) : pyRound x = n := by
  unfold pyRound
  rw [← Int.self_sub_floor, hm, if_neg hne, round_eq, hn]

theorem floor_le_pyRound {α : Type} [LinearOrderedField α] [FloorRing α] [DecidableEq α]
    (x : α) : ⌊x⌋ ≤ pyRound x := by
  unfold pyRound
  split
  · split
    · exact le_refl _
    · exact Int.le.intro 1 rfl
  · rw [round_eq]
    exact Int.floor_le_floor (by linarith [show (0 : α) < 1 / 2 by norm_num])

theorem pyRound_le_ceil {α : Type} [LinearOrderedField α] [FloorRing α] [DecidableEq α]
    (x : α) : pyRound x ≤ ⌈x⌉ := by
  unfold pyRound
  split
  · next h =>
    have hx : (⌊x⌋ : α) < x := by
      have hf := Int.floor_add_fract x
      rw [h] at hf
      nlinarith [show (0 : α) < 1 / 2 by norm_num]
    have hlt : ⌊x⌋ < ⌈x⌉ := Int.lt_ceil.mpr hx
    split
    · exact le_of_lt hlt
    · omega
  · rw [round_eq]
    have hx : x + 1 / 2 < ((⌈x⌉ + 1 : ℤ) : α) := by
      push_cast
      linarith [Int.le_ceil x]
    have := Int.floor_lt.mpr hx
    omega

/-! ## Loop lemmas -/

theorem loopRun_cons (s : BridgeState) (e : TickEnv) (rest : List TickEnv)
    (hs : s.shutdown = false) (s1 : BridgeState) (o : TickOut)
    (ht : tick s e = some (s1, o)) :
    loopRun s (e :: rest) =
      ⟨(loopRun s1 rest).crashed, (loopRun s1 rest).final, o :: (loopRun s1 rest).outs⟩ := by
  simp [loopRun, hs, ht]

/-- Claim C2: starting connected, a tick whose publish fails leaves
the Sink disconnected and publishes nothing; with the endpoint
accepting connections and publishing thereafter, the run over the two
ticks publishes exactly on the second tick (the first sample is
dropped, the published list is [none, some sample2]) and the following
tick establishes a fresh Sink connection (final state connected). -/
theorem publish_failure_single_tick_recovery (v : ℕ) (e1 e2 : TickEnv)
    (h1a : e1.alive = true) (h1r : e1.readOk = true) (h1t : e1.timeout = false)
    (h1u : e1.unexpected = false) (h1p : e1.publishOk = false) (h1s : e1.signal = false)
    (h2a : e2.alive = true) (h2r : e2.readOk = true) (h2t : e2.timeout = false)
    (h2u : e2.unexpected = false) (h2c : e2.connectOk = true) (h2p : e2.publishOk = true)
    (h2s : e2.signal = false) :
    tick ⟨false, some v, true⟩ e1 = some (⟨false, some v, false⟩, ⟨none, true, 1⟩) ∧
    tick ⟨false, some v, false⟩ e2 = some (⟨false, some v, true⟩, ⟨some e2.sample, false, 0⟩) ∧
    (loopRun ⟨false, some v, true⟩ [e1, e2]).outs.map TickOut.published =
      [none, some e2.sample] ∧
    (loopRun ⟨false, some v, true⟩ [e1, e2]).crashed = false ∧
    (loopRun ⟨false, some v, true⟩ [e1, e2]).final.kuksa = true := by
  have ht1 : tick ⟨false, some v, true⟩ e1 =
      some (⟨false, some v, false⟩, ⟨none, true, 1⟩) := by
    simp [tick, tickBody, tickCompute, _publish, h1a, h1r, h1t, h1u, h1p, h1s]
  have ht2 : tick ⟨false, some v, false⟩ e2 =
      some (⟨false, some v, true⟩, ⟨some e2.sample, false, 0⟩) := by
    simp [tick, tickBody, tickCompute, _publish, h2a, h2r, h2t, h2u, h2c, h2p, h2s]
  have hrun : loopRun ⟨false, some v, true⟩ [e1, e2] =
      ⟨false, ⟨false, some v, true⟩, [⟨none, true, 1⟩, ⟨some e2.sample, false, 0⟩]⟩ := by
    rw [loopRun_cons _ _ _ rfl _ _ ht1, loopRun_cons _ _ _ rfl _ _ ht2]
    rfl
  exact ⟨ht1, ht2, by rw [hrun]; rfl, by rw [hrun], by rw [hrun]⟩

theorem publish_failure_single_tick_recovery_witness :
    (loopRun ⟨false, some 1, true⟩ [envPublishFail, envOk]).outs.map TickOut.published =
      [none, some 4] ∧
    (loopRun ⟨false, some 1, true⟩ [envPublishFail, envOk]).final.kuksa = true := by
  have h := publish_failure_single_tick_recovery 1 envPublishFail envOk
    rfl rfl rfl rfl rfl rfl rfl rfl rfl rfl rfl rfl rfl
  exact ⟨h.2.2.1, h.2.2.2.2⟩

/-- Claim C3: with zero vehicle-kind actors in the world at startup
and no configured explicit id naming an existing actor, the process
exits with code 1 and the list of published samples is empty, for
every observation window. -/
theorem no_vehicles_exit_one_no_publish (world : List Actor) (vid : Option ℕ)
    (role : Option String) (kOk : Bool) (envs : List TickEnv)
    (hveh : world.filter isVehicleKind = [])
    (hid : ∀ i, vid = some i → getActor world i = none) :
    (bridge_main world vid role kOk envs).1 = 1 ∧
    (bridge_main world vid role kOk envs).2.1 = [] := by
  have herr : ∃ msg, ensure_vehicle world vid role = Except.error msg := by
    cases vid with
    | some i =>
      refine ⟨"Vehicle with id not found", ?_⟩
      simp only [ensure_vehicle, hid i rfl]
    | none =>
      cases role with
      | none =>
        refine ⟨"No vehicle actors found in the scene. Spawn one and retry.", ?_⟩
        simp only [ensure_vehicle, hveh]
      | some r =>
        refine ⟨"No vehicle actors found in the scene. Spawn one and retry.", ?_⟩
        simp only [ensure_vehicle, hveh, List.find?_nil, ite_self]
  obtain ⟨msg, herr⟩ := herr
  simp [bridge_main, herr]

theorem no_vehicles_exit_one_no_publish_witness :
    (bridge_main [walkerActor] none (some ("hero")) true [envOk]).1 = 1 ∧
    (bridge_main [walkerActor] none (some ("hero")) true [envOk]).2.1 = [] :=
  no_vehicles_exit_one_no_publish [walkerActor] none (some ("hero")) true [envOk]
    (by rfl) (fun i h => nomatch h)

/-- Claim C4: the implemented speed computation equals 3.6 times the
Euclidean magnitude of the velocity vector rounded to 3 decimal
places, and it maps the zero vector to 0. -/
theorem compute_speed_matches_euclidean_spec (v : ℝ × ℝ × ℝ) :
    _compute_speed_kmh v = computeSpeedSpec v ∧ _compute_speed_kmh (0, 0, 0) = 0 := by
  constructor
  · have hnorm : ‖((WithLp.equiv 2 (Fin 3 → ℝ)).symm ![v.1, v.2.1, v.2.2] :
        EuclideanSpace ℝ (Fin 3))‖ = Real.sqrt (v.1 ^ 2 + v.2.1 ^ 2 + v.2.2 ^ 2) := by
      rw [EuclideanSpace.norm_eq]
      norm_num [Fin.sum_univ_three, WithLp.equiv_symm_pi_apply, Real.norm_eq_abs, sq_abs]
    rw [_compute_speed_kmh, computeSpeedSpec, hnorm]
  · simp only [_compute_speed_kmh]
    norm_num [Real.sqrt_zero]
    simp only [roundTo]
    rw [zero_mul]
    rw [pyRound_eq_int (n := 0) _ (by norm_num)]
    norm_num

/-- Claim C5: with the default configuration (idle 800, max rpm 5000,
max speed 160) the estimator returns 800 at speed 0, 5000 at speed
160, 2900 at speed 80, 5000 for every speed above 160 and 800 for
every speed below 0. -/
theorem estimate_rpm_default_config_values (s : ℚ) :
    _estimate_rpm 160 800 5000 0 = 800 ∧
    _estimate_rpm 160 800 5000 160 = 5000 ∧
    _estimate_rpm 160 800 5000 80 = 2900 ∧
    (160 < s → _estimate_rpm 160 800 5000 s = 5000) ∧
    (s < 0 → _estimate_rpm 160 800 5000 s = 800) := by
  refine ⟨?_, ?_, ?_, ?_, ?_⟩
  · simp only [_estimate_rpm, clamp, roundTo_zero]
    norm_num [min_def, max_def]
    rw [pyRound_eq_int (n := 800) _ (by norm_num)]
    norm_num
  · simp only [_estimate_rpm, clamp, roundTo_zero]
    norm_num [min_def, max_def]
    rw [pyRound_eq_int (n := 5000) _ (by norm_num)]
    norm_num
  · simp only [_estimate_rpm, clamp, roundTo_zero]
    norm_num [min_def, max_def]
    rw [pyRound_eq_int (n := 2900) _ (by norm_num)]
    norm_num
  · intro h
    simp only [_estimate_rpm, roundTo_zero]
    rw [if_neg (by norm_num : ¬ (160:ℚ) ≤ 0)]
    have hr : clamp (s / 160) 0 1 = 1 := by
      unfold clamp
      rw [min_eq_left ((one_le_div (by norm_num)).mpr (le_of_lt h)), max_eq_right zero_le_one]
    rw [hr]
    norm_num [clamp, min_def, max_def]
    rw [pyRound_eq_int (n := 5000) _ (by norm_num)]
    norm_num
  · intro h
    simp only [_estimate_rpm, roundTo_zero]
    rw [if_neg (by norm_num : ¬ (160:ℚ) ≤ 0)]
    have hneg : s / 160 < 0 := div_neg_of_neg_of_pos h (by norm_num)
    have hr : clamp (s / 160) 0 1 = 0 := by
      unfold clamp
      rw [min_eq_right (le_trans (le_of_lt hneg) zero_le_one), max_eq_left (le_of_lt hneg)]
    rw [hr]
    norm_num [clamp, min_def, max_def]
    rw [pyRound_eq_int (n := 800) _ (by norm_num)]
    norm_num

theorem estimate_rpm_default_config_values_witness :
    _estimate_rpm 160 800 5000 200 = 5000 ∧ _estimate_rpm 160 800 5000 (-7) = 800 :=
  ⟨(estimate_rpm_default_config_values 200).2.2.2.1 (by norm_num),
   (estimate_rpm_default_config_values (-7)).2.2.2.2 (by norm_num)⟩

/-- Counterexample to claim C6 as stated: with a fractional idle value
(800.3) and max_speed_kmh = 0, the estimator does not return the idle
value — the final integer rounding turns 800.3 into 800. -/
theorem estimate_rpm_nonpos_max_counterexample :
    _estimate_rpm 0 (8003 / 10) 5000 123 ≠ 8003 / 10 := by
  have h : _estimate_rpm 0 (8003 / 10) 5000 123 = 800 := by
    simp only [_estimate_rpm, roundTo_zero]
    rw [if_pos (le_refl (0:ℚ))]
    norm_num [clamp, min_def, max_def]
    rw [pyRound_eval _ 800 800 (by rw [Int.floor_eq_iff]; norm_num) (by norm_num)
      (by rw [Int.floor_eq_iff]; norm_num)]
    norm_num
  rw [h]
  norm_num

/-- Claim C6 (amended): if max_speed_kmh ≤ 0 the interpolation ratio
is forced to 0 and the estimator returns the idle value rounded to the
nearest integer, independently of the input speed; in particular, when
idle is a whole number it returns idle exactly. -/
theorem estimate_rpm_nonpos_max_idle_rounded (ms idle mr s t : ℚ) (h : ms ≤ 0) :
    _estimate_rpm ms idle mr s = ((pyRound idle : ℤ) : ℚ) ∧
    _estimate_rpm ms idle mr s = _estimate_rpm ms idle mr t ∧
    (∀ n : ℤ, idle = (n : ℚ) → _estimate_rpm ms idle mr s = idle) := by
  have key : ∀ u : ℚ, _estimate_rpm ms idle mr u = ((pyRound idle : ℤ) : ℚ) := by
    intro u
    simp only [_estimate_rpm, roundTo_zero, if_pos h]
    rw [zero_mul, add_zero]
    have hc : clamp idle idle mr = idle := by
      unfold clamp
      exact max_eq_left (min_le_right mr idle)
    rw [hc]
  refine ⟨key s, (key s).trans (key t).symm, ?_⟩
  intro n hn
  rw [key s, hn, pyRound_intCast]

theorem estimate_rpm_nonpos_max_idle_rounded_witness :
    _estimate_rpm 0 800 5000 50 = 800 :=
  (estimate_rpm_nonpos_max_idle_rounded 0 800 5000 50 0 (le_refl 0)).2.2 800 (by norm_num)

/-- Counterexample to claim C7 as stated: with idle = 0.4 and
max_rpm = 1, the returned value (0, after the final integer rounding)
lies below the interval [idle, max_rpm]. -/
theorem estimate_rpm_range_counterexample :
    ¬ ((2 / 5 : ℚ) ≤ _estimate_rpm 160 (2 / 5) 1 0) := by
  have h : _estimate_rpm 160 (2 / 5) 1 0 = 0 := by
    simp only [_estimate_rpm, roundTo_zero]
    rw [if_neg (by norm_num : ¬ (160:ℚ) ≤ 0)]
    norm_num [clamp, min_def, max_def]
    rw [pyRound_eval _ 0 0 (by rw [Int.floor_eq_iff]; norm_num) (by norm_num)
      (by rw [Int.floor_eq_iff]; norm_num)]
  rw [h]
  norm_num

/-- Claim C7 (amended): for every input speed and every configuration
whose idle and max_rpm are whole numbers with idle ≤ max_rpm, the
estimator output lies within [idle, max_rpm]; the final rounding to an
integer can leave the interval when idle or max_rpm is fractional, and
for an inverted configuration the interval [idle, max_rpm] is empty. -/
theorem estimate_rpm_range_integral_config (idle mr : ℤ) (ms s : ℚ) (h : idle ≤ mr) :
    (idle : ℚ) ≤ _estimate_rpm ms (idle : ℚ) (mr : ℚ) s ∧
    _estimate_rpm ms (idle : ℚ) (mr : ℚ) s ≤ (mr : ℚ) := by
  have main : ∀ r : ℚ,
      (idle : ℚ) ≤
        ((pyRound (clamp ((idle : ℚ) + r * ((mr : ℚ) - (idle : ℚ))) (idle : ℚ) (mr : ℚ)) : ℤ) : ℚ) ∧
      ((pyRound (clamp ((idle : ℚ) + r * ((mr : ℚ) - (idle : ℚ))) (idle : ℚ) (mr : ℚ)) : ℤ) : ℚ) ≤
        (mr : ℚ) := by
    intro r
    have hlow : (idle : ℚ) ≤ clamp ((idle : ℚ) + r * ((mr : ℚ) - (idle : ℚ))) (idle : ℚ) (mr : ℚ) := by
      unfold clamp
      exact le_max_left _ _
    have hhigh : clamp ((idle : ℚ) + r * ((mr : ℚ) - (idle : ℚ))) (idle : ℚ) (mr : ℚ) ≤ (mr : ℚ) := by
      unfold clamp
      exact max_le (by exact_mod_cast h) (min_le_left _ _)
    constructor
    · have h2 : idle ≤ pyRound (clamp ((idle : ℚ) + r * ((mr : ℚ) - (idle : ℚ))) (idle : ℚ) (mr : ℚ)) :=
        le_trans (Int.le_floor.mpr hlow) (floor_le_pyRound _)
      exact_mod_cast h2
    · have h2 : pyRound (clamp ((idle : ℚ) + r * ((mr : ℚ) - (idle : ℚ))) (idle : ℚ) (mr : ℚ)) ≤ mr :=
        le_trans (pyRound_le_ceil _) (Int.ceil_le.mpr hhigh)
      exact_mod_cast h2
  simp only [_estimate_rpm, roundTo_zero]
  exact main _

theorem estimate_rpm_range_integral_config_witness :
    ((800 : ℤ) : ℚ) ≤ _estimate_rpm 160 ((800 : ℤ) : ℚ) ((5000 : ℤ) : ℚ) 37 ∧
    _estimate_rpm 160 ((800 : ℤ) : ℚ) ((5000 : ℤ) : ℚ) 37 ≤ ((5000 : ℤ) : ℚ) :=
  estimate_rpm_range_integral_config 800 5000 160 37 (by norm_num)

/-- Claim C8: target acquisition follows the priority order — an
explicit id is looked up and failure is immediate when absent (no
fallback); otherwise a nonempty role label returns the first
vehicle-kind actor whose role matches; if neither matched and a
vehicle-kind actor exists, the first enumerated vehicle is returned;
otherwise acquisition fails. -/
theorem acquire_target_priority_order (world : List Actor) (vid : ℕ) (r : String)
    (role : Option String) :
    (∀ a, getActor world vid = some a → ensure_vehicle world (some vid) role = Except.ok a) ∧
    (getActor world vid = none →
      ensure_vehicle world (some vid) role = Except.error ("Vehicle with id not found")) ∧
    (r ≠ "" → ∀ m, (world.filter isVehicleKind).find? (fun v => v.role_name == some r) = some m →
      ensure_vehicle world none (some r) = Except.ok m) ∧
    (∀ a rest, world.filter isVehicleKind = a :: rest →
      (world.filter isVehicleKind).find? (fun v => v.role_name == some r) = none →
      ensure_vehicle world none (some r) = Except.ok a) ∧
    (∀ a rest, world.filter isVehicleKind = a :: rest →
      ensure_vehicle world none none = Except.ok a) ∧
    (world.filter isVehicleKind = [] →
      ∃ msg, ensure_vehicle world none role = Except.error msg) := by
  refine ⟨?_, ?_, ?_, ?_, ?_, ?_⟩
  · intro a ha
    simp only [ensure_vehicle, ha]
  · intro ha
    simp only [ensure_vehicle, ha]
  · intro hr m hm
    simp only [ensure_vehicle, if_neg hr, hm]
  · intro a rest hva hm
    rw [hva] at hm
    simp only [ensure_vehicle, hva, hm, ite_self]
  · intro a rest hva
    simp only [ensure_vehicle, hva]
  · intro hveh
    cases role with
    | none =>
      refine ⟨"No vehicle actors found in the scene. Spawn one and retry.", ?_⟩
      simp only [ensure_vehicle, hveh]
    | some r2 =>
      refine ⟨"No vehicle actors found in the scene. Spawn one and retry.", ?_⟩
      simp only [ensure_vehicle, hveh, List.find?_nil, ite_self]

theorem acquire_target_priority_order_witness :
    ensure_vehicle witnessWorld none (some ("hero")) = Except.ok heroCar :=
  (acquire_target_priority_order witnessWorld 7 ("hero") none).2.2.1 (by decide)
    heroCar (by rfl)

/-- Claim C10: when an explicit vehicle id is configured and the world
holds an actor with that id, acquisition returns that actor even when
it is not vehicle-kind and not alive — the vehicle-kind filter is
never applied to the explicit-id lookup. -/
theorem explicit_id_bypasses_vehicle_filter (world : List Actor) (i : ℕ)
    (role : Option String) (a : Actor) (h : getActor world i = some a)
    (_hkind : isVehicleKind a = false) (_halive : a.is_alive = false) :
    ensure_vehicle world (some i) role = Except.ok a := by
  simp only [ensure_vehicle, h]

theorem explicit_id_bypasses_vehicle_filter_witness :
    ensure_vehicle witnessWorld (some 7) none = Except.ok walkerActor :=
  explicit_id_bypasses_vehicle_filter witnessWorld 7 none walkerActor (by rfl) (by rfl) (by rfl)
